import Mathlib

/-!
Shallow embedding of `generate_snp500_tickers_financial_data.py`.

Modelling conventions:
- Python floats are modelled as rationals (ℚ). A float literal in a test
  is translated to the exact rational value of its IEEE-754 double.
- Python `None` is `Option.none`; a per-ticker row (a Python dict) is the
  structure `FinRecord`, whose period entries are `Option String`, since the
  source stores the already-formatted percentage strings in the row.
- Python string comparison `a > b` is lexicographic on code points; it is
  modelled by `pyStrGt` below.
- The external world (yfinance) is an explicit environment `FetchEnv`:
  `financials t` returns either an error or the triple of net income,
  market cap (itself optional, since `.get` may yield `None`) and total
  revenue; `history t start end` returns either an error or the list of
  closing prices in the date range, in date order.
- Fallible Python operations used by the formatters (comparing `None` with a
  float, formatting `None` with a float format spec) are modelled in the
  `Except String` monad by the `*_run` variants.
-/

namespace StockAnalysis

/-- Lexicographic order on char lists by code point, as Python compares
strings: a proper prefix is smaller, otherwise the first differing
character decides. -/
def charsLt : List Char → List Char → Bool
  | _, [] => false
  | [], _ :: _ => true
  | a :: as, b :: bs =>
    if a.toNat < b.toNat then true
    else if b.toNat < a.toNat then false
    else charsLt as bs

/-- Python `a > b` on strings: `b` is lexicographically smaller than `a`. -/
def pyStrGt (a b : String) : Bool := charsLt b.data a.data

/-- The comparison performed inside `find_outperformers`:
`stock[period] is not None and benchmark_data[period] is not None and
stock[period] > benchmark_data[period]`. The stored values are the
formatted percentage strings, so `>` is Python string comparison. -/
def pyValGt : Option String → Option String → Bool
  | some a, some b => pyStrGt a b
  | _, _ => false

/-- Floor of a rational (numerator and denominator are coprime and the
denominator is positive, so flooring integer division gives the floor). -/
def ratFloor (q : ℚ) : ℤ := q.num.fdiv q.den

/-- Round a rational to the nearest integer, ties to even — the rounding
CPython applies when formatting a float with a fixed-point format spec
(the decimal conversion of a binary double is correctly rounded with
round-half-even). -/
def roundHalfEven (q : ℚ) : ℤ :=
  let n := ratFloor q
  let frac := q - (n : ℚ)
  if frac < 1/2 then n
  else if 1/2 < frac then n + 1
  else if n % 2 = 0 then n else n + 1

/-- Python `f"{q:.2f}"`: fixed-point rendering with exactly two digits
after the decimal point. The sign is taken from the value itself, so that
a negative value rounding to zero still prints a leading minus, as CPython
does. -/
def formatFixed2 (q : ℚ) : String :=
  let n := roundHalfEven (q * 100)
  let m := n.natAbs
  let sign := if q < 0 then "-" else ""
  sign ++ toString (m / 100) ++ "." ++ (if m % 100 < 10 then "0" else "") ++ toString (m % 100)

/-- `calculate_growth_rate(start_price, end_price)` from the source:
`((end_price - start_price) / start_price) * 100`. -/
def calculate_growth_rate (start_price end_price : ℚ) : ℚ :=
  ((end_price - start_price) / start_price) * 100

/-- `format_currency(value)` from the source: `"N/A"` for `None`, a
billions suffix for values at least `1e9`, a millions suffix for values at
least `1e6`, otherwise a plain two-decimal dollar amount. -/
def format_currency (value : Option ℚ) : String :=
  match value with
  | none => "N/A"
  | some v =>
    if v ≥ 10^9 then "$" ++ formatFixed2 (v / 10^9) ++ "B"
    else if v ≥ 10^6 then "$" ++ formatFixed2 (v / 10^6) ++ "M"
    else "$" ++ formatFixed2 v

/-- `format_percentage(value)` from the source: `"N/A"` for `None`,
otherwise the two-decimal rendering followed by a percent sign. -/
def format_percentage (value : Option ℚ) : String :=
  match value with
  | none => "N/A"
  | some v => formatFixed2 v ++ "%"

/-- Python `value >= bound` where `value` may be `None`: comparing `None`
with a float raises `TypeError`. -/
def pyCompareGe (value : Option ℚ) (bound : ℚ) : Except String Bool :=
  match value with
  | none => Except.error "TypeError: unorderable None"
  | some v => Except.ok (bound ≤ v)

/-- Python `value / d` where `value` may be `None`: dividing `None` by a
float raises `TypeError`. -/
def pyDivOpt (value : Option ℚ) (d : ℚ) : Except String (Option ℚ) :=
  match value with
  | none => Except.error "TypeError: unsupported operand"
  | some v => Except.ok (some (v / d))

/-- Python `f"{value:.2f}"` where `value` may be `None`: formatting `None`
with a float format spec raises `TypeError`. -/
def pyFormat2f (value : Option ℚ) : Except String String :=
  match value with
  | none => Except.error "TypeError: unsupported format string"
  | some v => Except.ok (formatFixed2 v)

/-- `format_currency` re-traced with every fallible Python operation made
explicit, to show the `None` guard runs first and the function never
raises on its declared domain. -/
def format_currency_run (value : Option ℚ) : Except String String :=
  if value = none then Except.ok "N/A"
  else do
    let b9 ← pyCompareGe value (10^9)
    if b9 then do
      let w ← pyDivOpt value (10^9)
      let s ← pyFormat2f w
      Except.ok ("$" ++ s ++ "B")
    else do
      let b6 ← pyCompareGe value (10^6)
      if b6 then do
        let w ← pyDivOpt value (10^6)
        let s ← pyFormat2f w
        Except.ok ("$" ++ s ++ "M")
      else do
        let s ← pyFormat2f value
        Except.ok ("$" ++ s)

/-- `format_percentage` re-traced with the fallible formatting operation
made explicit. -/
def format_percentage_run (value : Option ℚ) : Except String String :=
  if value = none then Except.ok "N/A"
  else do
    let s ← pyFormat2f value
    Except.ok (s ++ "%")

/-- The `five_year_periods` table from the source: label, start date, end
date. -/
def five_year_periods : List (String × String × String) :=
  [("1994-1999", "1994-01-01", "1999-01-01"),
   ("1999-2004", "1999-01-01", "2004-01-01"),
   ("2004-2009", "2004-01-01", "2009-01-01"),
   ("2009-2014", "2009-01-01", "2014-01-01"),
   ("2014-2019", "2014-01-01", "2019-01-01"),
   ("2019-2024", "2019-01-01", "2024-10-22")]

/-- The `ten_year_periods` table from the source. -/
def ten_year_periods : List (String × String × String) :=
  [("1994-2004", "1994-01-01", "2004-01-01"),
   ("2004-2014", "2004-01-01", "2014-01-01"),
   ("2014-2024", "2014-01-01", "2024-10-22")]

/-- The labels of the five-year periods, `five_year_periods.keys()`. -/
def fiveYearLabels : List String := five_year_periods.map (fun p => p.1)

/-- The labels of the ten-year periods. -/
def tenYearLabels : List String := ten_year_periods.map (fun p => p.1)

/-- One row built by `fetch_growth_and_financials`: the ticker symbol, the
three formatted fundamental strings, and the period entries. The source
stores rows as dicts whose period values are the formatted percentage
strings or `None`; `growth` returns `none` for a label absent from the
row. -/
structure FinRecord where
  ticker : String
  latestRevenue : String
  latestEarnings : String
  marketCap : String
  growth : String → Option String

/-- The external data source (yfinance). `financials t` models the
`try` block fetching net income, market cap and total revenue: an
exception anywhere in the block is a single `error`; on success market cap
may still be `None` because it is read with `.get('marketCap', None)`.
`history t start end` models `stock.history(start=..., end=...)`,
returning the closing prices in the range in date order, or an error. -/
structure FetchEnv where
  financials : String → Except String (ℚ × Option ℚ × ℚ)
  history : String → String → String → Except String (List ℚ)

/-- The body of the per-period loop in `fetch_growth_and_financials`: an
exception from `history` or an empty frame records `None`; otherwise the
growth between the first and last close is formatted. A zero start price
makes `calculate_growth_rate` raise `ZeroDivisionError`, which the
`except` catches, recording `None`. -/
def periodGrowth (env : FetchEnv) (ticker startDate endDate : String) : Option String :=
  match env.history ticker startDate endDate with
  | Except.error _ => none
  | Except.ok [] => none
  | Except.ok (c :: cs) =>
    let startPrice := c
    let endPrice := (c :: cs).getLastD c
    if startPrice = 0 then none
    else some (format_percentage (some (calculate_growth_rate startPrice endPrice)))

/-- The row `fetch_growth_and_financials` builds for one ticker. The
per-period loop iterates over `five_year_periods.items()` only, so only
five-year labels are keys of the row. -/
def fetchRecord (env : FetchEnv) (ticker : String) : FinRecord :=
  let fin := env.financials ticker
  { ticker := ticker
    latestRevenue := format_currency (match fin with
      | Except.ok (_, _, r) => some r
      | Except.error _ => none)
    latestEarnings := format_currency (match fin with
      | Except.ok (e, _, _) => some e
      | Except.error _ => none)
    marketCap := format_currency (match fin with
      | Except.ok (_, m, _) => m
      | Except.error _ => none)
    growth := fun lbl =>
      match five_year_periods.find? (fun p => p.1 == lbl) with
      | none => none
      | some (_, startDate, endDate) => periodGrowth env ticker startDate endDate }

/-- `fetch_growth_and_financials(tickers)`: the loop appends one row per
ticker, in order. -/
def fetch_growth_and_financials (env : FetchEnv) (tickers : List String) : List FinRecord :=
  tickers.map (fetchRecord env)

/-- The `all(...)` condition of `find_outperformers`, over a given set of
period labels. -/
def beatsBenchmark (labels : List String) (benchmark_data : FinRecord) (stock : FinRecord) : Bool :=
  labels.all fun p => pyValGt (stock.growth p) (benchmark_data.growth p)

/-- `find_outperformers`, parameterised by the configured period-label
set: the loop appends the ticker of every row passing the `all(...)`
condition, in input order. -/
def find_outperformers_over (labels : List String) :
    List FinRecord → FinRecord → List String
  | [], _ => []
  | stock :: rest, benchmark_data =>
    if beatsBenchmark labels benchmark_data stock then
      stock.ticker :: find_outperformers_over labels rest benchmark_data
    else
      find_outperformers_over labels rest benchmark_data

/-- `find_outperformers(stock_data, benchmark_data)` from the source,
which closes over the module-level `five_year_periods`. -/
def find_outperformers (stock_data : List FinRecord) (benchmark_data : FinRecord) : List String :=
  find_outperformers_over fiveYearLabels stock_data benchmark_data

/-- A row of the end-to-end scenario of the specification: a ticker with
period entries for the two configured labels P1 and P2 only. -/
def scenarioRecord (t : String) (g1 g2 : Option String) : FinRecord :=
  { ticker := t
    latestRevenue := "N/A"
    latestEarnings := "N/A"
    marketCap := "N/A"
    growth := fun p => if p = "P1" then g1 else if p = "P2" then g2 else none }

/-- An environment in which every call succeeds: fundamentals are present
and every price-history request returns the closes 10 and 20. -/
def envAllData : FetchEnv :=
  { financials := fun _ => Except.ok (5, some 7, 11)
    history := fun _ _ _ => Except.ok [10, 20] }

/-- An environment in which fundamentals succeed but every price-history
request returns an empty frame. -/
def envEmptyHistory : FetchEnv :=
  { financials := fun _ => Except.ok (5, some 7, 11)
    history := fun _ _ _ => Except.ok [] }

/-- An environment in which fetching fundamentals always raises while
price history succeeds. -/
def envFinFail : FetchEnv :=
  { financials := fun _ => Except.error "boom"
    history := fun _ _ _ => Except.ok [10, 20] }

/-- A row missing its "1999-2004" entry while beating the benchmark in
every entry it has. -/
def recMissing : FinRecord :=
  { ticker := "B"
    latestRevenue := "N/A"
    latestEarnings := "N/A"
    marketCap := "N/A"
    growth := fun p => if p = "1999-2004" then none else some "9.00%" }

/-- A benchmark row with a value in every five-year period. -/
def recBench : FinRecord :=
  { ticker := "SPY"
    latestRevenue := "N/A"
    latestEarnings := "N/A"
    marketCap := "N/A"
    growth := fun _ => some "1.00%" }

/-- The loop of `find_outperformers` is the filter of the rows passing the
`all(...)` condition, projected to their tickers. -/
theorem find_outperformers_over_eq_filter (labels : List String)
    (sd : List FinRecord) (bd : FinRecord) :
    find_outperformers_over labels sd bd
      = (sd.filter (beatsBenchmark labels bd)).map FinRecord.ticker := by
  induction sd with
  | nil => rfl
  | cons s rest ih =>
    by_cases h : beatsBenchmark labels bd s <;>
      simp [find_outperformers_over, List.filter_cons, h, ih]

/-- Claim C1: on the specification's end-to-end scenario the claim fails.
The rows store formatted percentage strings and `find_outperformers`
compares them with Python string order, so "9.00%" counts as greater than
"10.00%" and ticker C is returned together with A, although C's growth of
9 percent does not exceed the benchmark's 10 percent. -/
theorem find_outperformers_scenario_string_compare :
    pyStrGt "9.00%" "10.00%" = true
  ∧ find_outperformers_over ["P1", "P2"]
      [scenarioRecord "A" (some "12.00%") (some "6.00%"),
       scenarioRecord "B" (some "12.00%") none,
       scenarioRecord "C" (some "9.00%") (some "6.00%")]
      (scenarioRecord "SPY" (some "10.00%") (some "5.00%"))
    = ["A", "C"] := by
  exact ⟨by decide, by decide⟩

/-- Claim C2: for positive, non-zero prices, `calculate_growth_rate` is
exactly the relative change in percent, and the two quoted examples
evaluate as stated. -/
theorem calculate_growth_rate_spec :
    (∀ s e : ℚ, 0 < s → 0 < e → calculate_growth_rate s e = ((e - s) / s) * 100)
  ∧ calculate_growth_rate 100 150 = 50
  ∧ calculate_growth_rate 100 50 = -50 := by
  exact ⟨fun s e _ _ => rfl, by with_unfolding_all rfl, by with_unfolding_all rfl⟩

/-- Witness for claim C2 at start price 100 and end price 150. -/
theorem calculate_growth_rate_spec_witness :
    (0:ℚ) < 100 ∧ (0:ℚ) < 150
  ∧ calculate_growth_rate 100 150 = ((150 - 100) / 100) * 100 :=
  ⟨by norm_num, by norm_num,
    calculate_growth_rate_spec.1 100 150 (by norm_num) (by norm_num)⟩

/-- Claim C3: `format_currency` renders the missing sentinel as "N/A",
uses the billions suffix from 1e9, the millions suffix from 1e6, a plain
dollar amount below that, always with two decimals, and the four quoted
examples evaluate as stated. -/
theorem format_currency_spec :
    format_currency none = "N/A"
  ∧ (∀ v : ℚ, v ≥ 10^9 → format_currency (some v) = "$" ++ formatFixed2 (v / 10^9) ++ "B")
  ∧ (∀ v : ℚ, v < 10^9 → v ≥ 10^6 →
      format_currency (some v) = "$" ++ formatFixed2 (v / 10^6) ++ "M")
  ∧ (∀ v : ℚ, v < 10^6 → format_currency (some v) = "$" ++ formatFixed2 v)
  ∧ format_currency (some 2500000000) = "$2.50B"
  ∧ format_currency (some 2500000) = "$2.50M"
  ∧ format_currency (some 999) = "$999.00" := by
  refine ⟨rfl, ?_, ?_, ?_, ?_, ?_, ?_⟩
  · intro v h
    rw [format_currency, if_pos h]
  · intro v h9 h6
    rw [format_currency, if_neg (not_le.mpr h9), if_pos h6]
  · intro v h6
    have h9 : ¬ v ≥ 10^9 := not_le.mpr (lt_trans h6 (by norm_num))
    rw [format_currency, if_neg h9, if_neg (not_le.mpr h6)]
  · with_unfolding_all rfl
  · with_unfolding_all rfl
  · with_unfolding_all rfl

/-- Witness for claim C3 at the boundary values 1e9, 1e6 and 1000. -/
theorem format_currency_spec_witness :
    format_currency (some (10^9)) = "$" ++ formatFixed2 ((10^9 : ℚ) / 10^9) ++ "B"
  ∧ format_currency (some (10^6)) = "$" ++ formatFixed2 ((10^6 : ℚ) / 10^6) ++ "M"
  ∧ format_currency (some 1000) = "$" ++ formatFixed2 1000 :=
  ⟨format_currency_spec.2.1 (10^9) (le_refl _),
   format_currency_spec.2.2.1 (10^6) (by norm_num) (le_refl _),
   format_currency_spec.2.2.2.1 1000 (by norm_num)⟩

/-- Claim C4: `format_percentage` renders the missing sentinel as "N/A"
and any value as its two-decimal rendering with a percent sign. The
quoted example input 12.345 is the exact rational value of the IEEE-754
double nearest 12.345, namely 6949617174986097 / 2^49, which is slightly
above 12.345 and therefore rounds up to "12.35%" as the claim states. -/
theorem format_percentage_spec :
    format_percentage none = "N/A"
  ∧ (∀ v : ℚ, format_percentage (some v) = formatFixed2 v ++ "%")
  ∧ format_percentage (some ((6949617174986097 : ℚ) / 2^49)) = "12.35%" :=
  ⟨rfl, fun _ => rfl, by with_unfolding_all rfl⟩

/-- Claim C5: over the declared domain of a numeric value or the missing
sentinel, the re-traced fallible evaluations of both formatters always
succeed and return exactly the pure results: the leading `None` guard
runs before any operation that could raise. -/
theorem formatters_total (value : Option ℚ) :
    format_currency_run value = Except.ok (format_currency value)
  ∧ format_percentage_run value = Except.ok (format_percentage value) := by
  constructor
  · cases value with
    | none => rfl
    | some v =>
      by_cases h9 : v ≥ 10^9
      · simp [format_currency_run, format_currency, pyCompareGe, pyDivOpt, pyFormat2f, h9]
        rfl
      · by_cases h6 : v ≥ 10^6 <;>
          · simp [format_currency_run, format_currency, pyCompareGe, pyDivOpt, pyFormat2f, h9, h6]
            rfl
  · cases value with
    | none => rfl
    | some v => rfl

/-- Claim C6: a row whose own entry or whose benchmark entry is missing in
at least one configured five-year period never contributes its ticker to
the outperformer list, whatever its other entries hold; rows are
per-ticker, so ticker symbols are assumed pairwise distinct. -/
theorem find_outperformers_missing_excluded
    (stock_data : List FinRecord) (benchmark_data r : FinRecord)
    (hr : r ∈ stock_data)
    (hnd : (stock_data.map FinRecord.ticker).Nodup)
    (p : String) (hp : p ∈ fiveYearLabels)
    (hmiss : r.growth p = none ∨ benchmark_data.growth p = none) :
    r.ticker ∉ find_outperformers stock_data benchmark_data := by
  intro hmem
  rw [find_outperformers, find_outperformers_over_eq_filter] at hmem
  rcases List.mem_map.mp hmem with ⟨r', hr', ht⟩
  rcases List.mem_filter.mp hr' with ⟨hr'sd, hbeats⟩
  have hrr : r' = r := List.inj_on_of_nodup_map hnd hr'sd hr ht
  rw [hrr] at hbeats
  have hb : pyValGt (r.growth p) (benchmark_data.growth p) = true :=
    List.all_eq_true.mp hbeats p hp
  rcases hmiss with hm | hm
  · rw [hm] at hb
    cases h2 : benchmark_data.growth p <;> rw [h2] at hb <;> simp [pyValGt] at hb
  · rw [hm] at hb
    cases h1 : r.growth p <;> rw [h1] at hb <;> simp [pyValGt] at hb

/-- Witness for claim C6: a singleton input whose row misses the
"1999-2004" entry is excluded even though all its present entries beat
the benchmark. -/
theorem find_outperformers_missing_excluded_witness :
    recMissing.ticker ∉ find_outperformers [recMissing] recBench :=
  find_outperformers_missing_excluded [recMissing] recBench recMissing
    (List.mem_singleton.mpr rfl) (by decide) "1999-2004" (by decide)
    (Or.inl rfl)

/-- Claim C7: in every row produced by `fetch_growth_and_financials`, a
period entry is present only if the price history for that period came
back non-empty (so both the first and the last close exist), and an
erroring or empty history leaves the entry explicitly missing. -/
theorem fetch_growth_present_iff_prices
    (env : FetchEnv) (tickers : List String) (r : FinRecord)
    (hr : r ∈ fetch_growth_and_financials env tickers)
    (lbl startDate endDate : String)
    (hlbl : five_year_periods.find? (fun p => p.1 == lbl) = some (lbl, startDate, endDate)) :
    ((∃ s, r.growth lbl = some s) →
        ∃ c cs, env.history r.ticker startDate endDate = Except.ok (c :: cs))
  ∧ (∀ e, env.history r.ticker startDate endDate = Except.error e → r.growth lbl = none)
  ∧ (env.history r.ticker startDate endDate = Except.ok [] → r.growth lbl = none) := by
  rcases List.mem_map.mp hr with ⟨t, ht, hrt⟩
  subst hrt
  have hg : (fetchRecord env t).growth lbl = periodGrowth env t startDate endDate := by
    show (match five_year_periods.find? (fun p => p.1 == lbl) with
      | none => none
      | some (_, startDate, endDate) => periodGrowth env t startDate endDate)
        = periodGrowth env t startDate endDate
    rw [hlbl]
  have hticker : (fetchRecord env t).ticker = t := rfl
  rw [hticker, hg]
  refine ⟨?_, ?_, ?_⟩
  · rintro ⟨s, hs⟩
    rw [periodGrowth] at hs
    cases hh : env.history t startDate endDate with
    | error e => rw [hh] at hs; simp at hs
    | ok closes =>
      cases closes with
      | nil => rw [hh] at hs; simp at hs
      | cons c cs => exact ⟨c, cs, rfl⟩
  · intro e he
    rw [periodGrowth, he]
  · intro he
    rw [periodGrowth, he]

/-- Witness for claim C7: with an environment whose price history is
always empty, the fetched row records the "1994-1999" entry as missing. -/
theorem fetch_growth_present_iff_prices_witness :
    (fetchRecord envEmptyHistory "AAPL").growth "1994-1999" = none :=
  (fetch_growth_present_iff_prices envEmptyHistory ["AAPL"]
      (fetchRecord envEmptyHistory "AAPL") (List.mem_singleton.mpr rfl)
      "1994-1999" "1994-01-01" "1999-01-01" (by decide)).2.2 rfl

/-- Claim C8: a fundamentals failure for one ticker is caught: the three
fundamental fields of that row are the missing-value rendering, the batch
still yields one row per input ticker and that ticker's row is among
them, and the period entries do not depend on the fundamentals outcome —
each period entry depends only on the price history of its own date
range. -/
theorem fetch_fundamentals_error_isolated
    (env : FetchEnv) (tickers : List String) (t : String) (ht : t ∈ tickers)
    (e : String) (he : env.financials t = Except.error e) :
    ((fetchRecord env t).latestRevenue = "N/A"
      ∧ (fetchRecord env t).latestEarnings = "N/A"
      ∧ (fetchRecord env t).marketCap = "N/A")
  ∧ (fetch_growth_and_financials env tickers).length = tickers.length
  ∧ fetchRecord env t ∈ fetch_growth_and_financials env tickers
  ∧ (∀ env' : FetchEnv, env'.history = env.history →
      ∀ lbl, (fetchRecord env' t).growth lbl = (fetchRecord env t).growth lbl)
  ∧ (∀ (env' : FetchEnv) (lbl startDate endDate : String),
      five_year_periods.find? (fun p => p.1 == lbl) = some (lbl, startDate, endDate) →
      env'.history t startDate endDate = env.history t startDate endDate →
      (fetchRecord env' t).growth lbl = (fetchRecord env t).growth lbl) := by
  refine ⟨⟨?_, ?_, ?_⟩, ?_, ?_, ?_, ?_⟩
  · show format_currency (match env.financials t with
      | Except.ok (_, _, r) => some r
      | Except.error _ => none) = "N/A"
    rw [he]
    rfl
  · show format_currency (match env.financials t with
      | Except.ok (e, _, _) => some e
      | Except.error _ => none) = "N/A"
    rw [he]
    rfl
  · show format_currency (match env.financials t with
      | Except.ok (_, m, _) => m
      | Except.error _ => none) = "N/A"
    rw [he]
    rfl
  · exact List.length_map tickers (fetchRecord env)
  · exact List.mem_map.mpr ⟨t, ht, rfl⟩
  · intro env' hh lbl
    cases hfind : five_year_periods.find? (fun p => p.1 == lbl) with
    | none => simp [fetchRecord, hfind]
    | some trip =>
      obtain ⟨l, sd, ed⟩ := trip
      simp [fetchRecord, hfind, periodGrowth, hh]
  · intro env' lbl sd ed hfind hh
    simp [fetchRecord, hfind, periodGrowth, hh]

/-- Witness for claim C8: in an environment whose fundamentals calls all
raise, the "AAPL" row renders its revenue as "N/A" while the batch over
two tickers still has two rows. -/
theorem fetch_fundamentals_error_isolated_witness :
    (fetchRecord envFinFail "AAPL").latestRevenue = "N/A"
  ∧ (fetch_growth_and_financials envFinFail ["AAPL", "MSFT"]).length = 2 :=
  ⟨(fetch_fundamentals_error_isolated envFinFail ["AAPL", "MSFT"] "AAPL"
      (by decide) "boom" rfl).1.1,
   (fetch_fundamentals_error_isolated envFinFail ["AAPL", "MSFT"] "AAPL"
      (by decide) "boom" rfl).2.1⟩

/-- Claim C9: contrary to the claim, the fetcher never computes a growth
value for the ten-year windows: the per-period loop iterates only over
`five_year_periods`. Even in an environment where every price-history
request succeeds, the fetched row has no "1994-2004" entry, while the
five-year entry "1994-1999" is computed. -/
theorem ten_year_growth_never_computed :
    ("1994-2004", "1994-01-01", "2004-01-01") ∈ ten_year_periods
  ∧ (fetchRecord envAllData "AAPL").growth "1994-2004" = none
  ∧ (fetchRecord envAllData "AAPL").growth "1994-1999" = some "100.00%" := by
  exact ⟨by decide, by with_unfolding_all rfl, by with_unfolding_all rfl⟩

/-- Claim C10: the outperformer list is the tickers of the rows passing
the filter, in input order — each qualifying row contributes its ticker
exactly once, and the result is an ordered sublist of the input's ticker
column. -/
theorem find_outperformers_ordered_sublist
    (stock_data : List FinRecord) (benchmark_data : FinRecord) :
    find_outperformers stock_data benchmark_data
      = (stock_data.filter (beatsBenchmark fiveYearLabels benchmark_data)).map FinRecord.ticker
  ∧ List.Sublist (find_outperformers stock_data benchmark_data)
      (stock_data.map FinRecord.ticker) := by
  refine ⟨find_outperformers_over_eq_filter _ _ _, ?_⟩
  rw [find_outperformers, find_outperformers_over_eq_filter]
  exact List.Sublist.map FinRecord.ticker (List.filter_sublist stock_data)

end StockAnalysis
